import Mathlib

set_option maxRecDepth 100000

/-!
Shallow embedding of the progress/goal computation engine of
`src/app/modules/activities/activity.service.ts` (stride-sync).

JavaScript `number` values carrying measures (miles, minutes, pace,
percentages, goal targets) are modelled as `ℚ`; timestamps (`Date.now()`)
as `Nat`; JS `Date` values as a plain calendar date `SimpleDate` with a
1-based month (the source always reads dates through
`getMonth() + 1` / `getFullYear()`, so only year/month/day matter).
The Firestore collections touched by the engine are modelled as an
explicit `Store` value threaded through each operation; fallible store
primitives are modelled with `Except String`, with per-operation failure
flags so that a failing store operation can be injected, mirroring the
`try`/`catch` wrappers of the source.
-/

namespace StrideSync

/-- A calendar date: year, 1-based month, day of month. -/
structure SimpleDate where
  year : Nat
  month : Nat
  day : Nat
deriving DecidableEq, Repr

/-- Chronological (lexicographic) order on dates, matching both ISO-string
comparison and JS `Date` comparison for the dates the engine handles. -/
def SimpleDate.le (a b : SimpleDate) : Bool :=
  if a.year ≠ b.year then decide (a.year < b.year)
  else if a.month ≠ b.month then decide (a.month < b.month)
  else decide (a.day ≤ b.day)

/-- Number of days in a (1-based) month, as produced by the JS idiom
`new Date(year, month, 0).getDate()`. -/
def daysInMonth (year month : Nat) : Nat :=
  if month = 2 then (if (year % 4 = 0 ∧ year % 100 ≠ 0) ∨ year % 400 = 0 then 29 else 28)
  else if month = 4 ∨ month = 6 ∨ month = 9 ∨ month = 11 then 30
  else 31

/-- `interface StravaActivity` (the fields the engine reads). -/
structure StravaActivity where
  id : Nat
  name : String
  type : String
  distance : ℚ
  moving_time : ℚ
  total_elevation_gain : ℚ
  start_date : SimpleDate
  calories : Option ℚ
  summary_polyline : Option String
deriving DecidableEq, Repr

/-- `interface ActivitySummary`. -/
structure ActivitySummary where
  id : Nat
  name : String
  type : String
  distance : ℚ
  duration : ℚ
  date : SimpleDate
  pace : Option ℚ
  elevation : Option ℚ
  calories : Option ℚ
  route : Option String
deriving DecidableEq, Repr

/-- `interface MonthlyGoal` (flattened with its base `Goal`). -/
structure MonthlyGoal where
  id : String
  userId : String
  type : String
  target : ℚ
  current : ℚ
  startDate : SimpleDate
  endDate : SimpleDate
  isCompleted : Bool
  createdAt : Nat
  updatedAt : Nat
  month : Nat
  year : Nat
deriving DecidableEq, Repr

/-- `interface SeasonalGoal` (flattened with its base `Goal`). -/
structure SeasonalGoal where
  id : String
  userId : String
  type : String
  target : ℚ
  current : ℚ
  startDate : SimpleDate
  endDate : SimpleDate
  isCompleted : Bool
  createdAt : Nat
  updatedAt : Nat
  season : String
  year : Nat
deriving DecidableEq, Repr

/-- `interface Progress`. -/
structure Progress where
  userId : String
  monthlyMileage : ℚ
  seasonalMileage : ℚ
  monthlyGoal : ℚ
  seasonalGoal : ℚ
  monthlyProgress : ℚ
  seasonalProgress : ℚ
  lastUpdated : Nat
  totalActivities : Nat
  averagePace : ℚ
  longestRun : ℚ
deriving DecidableEq, Repr

/-- `metersToMiles`: meters × 0.000621371. -/
def metersToMiles (meters : ℚ) : ℚ := meters * (621371 / 1000000000)

/-- `secondsToMinutes`: seconds ÷ 60. -/
def secondsToMinutes (seconds : ℚ) : ℚ := seconds / 60

/-- `calculatePace`: minutes per mile, guarded against non-positive distance. -/
def calculatePace (distanceMiles durationMinutes : ℚ) : ℚ :=
  if 0 < distanceMiles then durationMinutes / distanceMiles else 0

/-- `convertToActivitySummary`. -/
def convertToActivitySummary (activity : StravaActivity) : ActivitySummary :=
  let distanceMiles := metersToMiles activity.distance
  let durationMinutes := secondsToMinutes activity.moving_time
  let pace := calculatePace distanceMiles durationMinutes
  let elevationFeet := activity.total_elevation_gain * (328084 / 100000)
  { id := activity.id
    name := activity.name
    type := activity.type
    distance := distanceMiles
    duration := durationMinutes
    date := activity.start_date
    pace := some pace
    elevation := some elevationFeet
    calories := activity.calories
    route := activity.summary_polyline }

/-- `getCurrentSeason` (reads the month of the current instant). -/
def getCurrentSeason (now : SimpleDate) : String :=
  let month := now.month
  if 3 ≤ month ∧ month ≤ 5 then "Spring"
  else if 6 ≤ month ∧ month ≤ 8 then "Summer"
  else if 9 ≤ month ∧ month ≤ 11 then "Fall"
  else "Winter"

/-- `isInSeason`: the source inspects only the month of the date. -/
def isInSeason (date : SimpleDate) (season : String) : Bool :=
  let month := date.month
  if season = "Spring" then decide (3 ≤ month ∧ month ≤ 5)
  else if season = "Summer" then decide (6 ≤ month ∧ month ≤ 8)
  else if season = "Fall" then decide (9 ≤ month ∧ month ≤ 11)
  else if season = "Winter" then decide (month = 12 ∨ month ≤ 2)
  else false

/-- `getSeasonStartDate`: `new Date(year, startMonth - 1, 1)`. -/
def getSeasonStartDate (season : String) (year : Nat) : SimpleDate :=
  let startMonth :=
    if season = "Spring" then 3
    else if season = "Summer" then 6
    else if season = "Fall" then 9
    else if season = "Winter" then 12
    else 1
  ⟨year, startMonth, 1⟩

/-- `getSeasonEndDate`: `new Date(endYear, endMonth, 0)`, i.e. the last day of
month `endMonth`, rolling into the next year for Winter. -/
def getSeasonEndDate (season : String) (year : Nat) : SimpleDate :=
  let endMonth :=
    if season = "Spring" then 5
    else if season = "Summer" then 8
    else if season = "Fall" then 11
    else if season = "Winter" then 2
    else 12
  let endYear := if season = "Winter" then year + 1 else year
  ⟨endYear, endMonth, daysInMonth endYear endMonth⟩

/-- Per-operation failure switches for the Firestore primitives the engine
touches, so that "any underlying store operation failing" can be injected. -/
structure FailFlags where
  listActs : Bool
  getGoal : Bool
  setGoal : Bool
  getProgress : Bool
  setProgress : Bool
deriving DecidableEq, Repr

/-- All store primitives succeed. -/
def noFail : FailFlags := ⟨false, false, false, false, false⟩

/-- One user's slice of the Firestore state: the `activities` subcollection,
the `goals` subcollection (split by goal kind, keyed by document id), and the
single `progress/current` document. -/
structure Store where
  activities : List ActivitySummary
  monthlyGoals : List (String × MonthlyGoal)
  seasonalGoals : List (String × SeasonalGoal)
  progressDoc : Option Progress
  fail : FailFlags
deriving DecidableEq, Repr

/-- Firestore `doc(key).set(v)`: overwrite the document at `key`. -/
def setDoc {α : Type} (key : String) (v : α) (docs : List (String × α)) :
    List (String × α) :=
  (key, v) :: docs.filter (fun p => !(p.1 == key))

/-- Document id `monthly_{year}_{month}`. -/
def monthlyKey (month year : Nat) : String := s!"monthly_{year}_{month}"

/-- Document id `seasonal_{year}_{season}`. -/
def seasonalKey (season : String) (year : Nat) : String := s!"seasonal_{year}_{season}"

/-- The query of `getUserActivities`: optional equality filter on `type`,
optional range filters on `date`, ordered by date descending, then
`offset`/`limit` applied. -/
def applyQuery (l : List ActivitySummary) (lim off : Nat) (ty : Option String)
    (sd ed : Option SimpleDate) : List ActivitySummary :=
  let l1 : List ActivitySummary := match ty with
    | some t => l.filter (fun a => a.type == t)
    | none => l
  let l2 : List ActivitySummary := match sd with
    | some d => l1.filter (fun a => SimpleDate.le d a.date)
    | none => l1
  let l3 : List ActivitySummary := match ed with
    | some d => l2.filter (fun a => SimpleDate.le a.date d)
    | none => l2
  ((l3.insertionSort (fun a b => SimpleDate.le b.date a.date = true)).drop off).take lim

/-- `getUserActivities` (READ): runs the query; a store failure surfaces as
the generic `Failed to get activities` error. -/
def getUserActivities (s : Store) (lim off : Nat) (ty : Option String)
    (sd ed : Option SimpleDate) : Except String (List ActivitySummary) :=
  if s.fail.listActs then .error "Failed to get activities"
  else .ok (applyQuery s.activities lim off ty sd ed)

/-- The default monthly goal document built by `getOrCreateMonthlyGoal` when
no document exists at the key (target 26.2, month start/end dates). -/
def defaultMonthlyGoal (userId : String) (month year nowMs : Nat) : MonthlyGoal :=
  { id := monthlyKey month year
    userId := userId
    type := "monthly"
    target := 131 / 5
    current := 0
    startDate := ⟨year, month, 1⟩
    endDate := ⟨year, month, daysInMonth year month⟩
    isCompleted := false
    createdAt := nowMs
    updatedAt := nowMs
    month := month
    year := year }

/-- The default seasonal goal document built by `getOrCreateSeasonalGoal` when
no document exists at the key (target 78.6, season start/end dates). -/
def defaultSeasonalGoal (userId season : String) (year nowMs : Nat) : SeasonalGoal :=
  { id := seasonalKey season year
    userId := userId
    type := "seasonal"
    target := 393 / 5
    current := 0
    startDate := getSeasonStartDate season year
    endDate := getSeasonEndDate season year
    isCompleted := false
    createdAt := nowMs
    updatedAt := nowMs
    season := season
    year := year }

/-- `getOrCreateMonthlyGoal`: deterministic key lookup; return the stored
document as-is when present, otherwise persist and return the default. -/
def getOrCreateMonthlyGoal (s : Store) (userId : String) (month year nowMs : Nat) :
    Except String (MonthlyGoal × Store) :=
  if s.fail.getGoal then .error "Failed to create monthly goal"
  else
    match s.monthlyGoals.lookup (monthlyKey month year) with
    | some g => .ok (g, s)
    | none =>
      if s.fail.setGoal then .error "Failed to create monthly goal"
      else
        let g := defaultMonthlyGoal userId month year nowMs
        .ok (g, { s with monthlyGoals := setDoc (monthlyKey month year) g s.monthlyGoals })

/-- `getOrCreateSeasonalGoal`: deterministic key lookup; return the stored
document as-is when present, otherwise persist and return the default. -/
def getOrCreateSeasonalGoal (s : Store) (userId season : String) (year nowMs : Nat) :
    Except String (SeasonalGoal × Store) :=
  if s.fail.getGoal then .error "Failed to create seasonal goal"
  else
    match s.seasonalGoals.lookup (seasonalKey season year) with
    | some g => .ok (g, s)
    | none =>
      if s.fail.setGoal then .error "Failed to create seasonal goal"
      else
        let g := defaultSeasonalGoal userId season year nowMs
        .ok (g, { s with seasonalGoals := setDoc (seasonalKey season year) g s.seasonalGoals })

/-- The aggregation and assembly performed in the body of
`updateUserProgress` once the activity list and the two goal targets are at
hand (source lines 204–250). -/
def buildProgress (userId : String) (activities : List ActivitySummary)
    (now : SimpleDate) (nowMs : Nat) (monthlyTarget seasonalTarget : ℚ) : Progress :=
  let currentMonth := now.month
  let currentYear := now.year
  let monthlyActivities := activities.filter
    (fun a => a.date.month == currentMonth && a.date.year == currentYear)
  let monthlyMileage := (monthlyActivities.map (fun a => a.distance)).sum
  let currentSeason := getCurrentSeason now
  let seasonalActivities := activities.filter (fun a => isInSeason a.date currentSeason)
  let seasonalMileage := (seasonalActivities.map (fun a => a.distance)).sum
  let totalActivities := activities.length
  let averagePace :=
    if 0 < activities.length
    then ((activities.map (fun a => a.pace.getD 0)).sum) / (activities.length : ℚ)
    else 0
  let longestRun := (activities.map (fun a => a.distance)).foldr max 0
  { userId := userId
    monthlyMileage := monthlyMileage
    seasonalMileage := seasonalMileage
    monthlyGoal := monthlyTarget
    seasonalGoal := seasonalTarget
    monthlyProgress := monthlyMileage / monthlyTarget * 100
    seasonalProgress := seasonalMileage / seasonalTarget * 100
    lastUpdated := nowMs
    totalActivities := totalActivities
    averagePace := averagePace
    longestRun := longestRun }

/-- `updateUserProgress`: load the user's activities (`limit: 1000`),
aggregate, resolve the two goals for the current period, assemble the
`Progress` snapshot, overwrite-persist it and return it; any store failure
along the way surfaces as the generic `Failed to update progress` error. -/
def updateUserProgress (s : Store) (userId : String) (now : SimpleDate) (nowMs : Nat) :
    Except String (Progress × Store) :=
  match getUserActivities s 1000 0 none none none with
  | .error _ => .error "Failed to update progress"
  | .ok activities =>
    match getOrCreateMonthlyGoal s userId now.month now.year nowMs with
    | .error _ => .error "Failed to update progress"
    | .ok (monthlyGoal, s1) =>
      match getOrCreateSeasonalGoal s1 userId (getCurrentSeason now) now.year nowMs with
      | .error _ => .error "Failed to update progress"
      | .ok (seasonalGoal, s2) =>
        let progress :=
          buildProgress userId activities now nowMs monthlyGoal.target seasonalGoal.target
        if s2.fail.setProgress then .error "Failed to update progress"
        else .ok (progress, { s2 with progressDoc := some progress })

/-- `getUserProgress`: return the persisted `progress/current` document when
present; otherwise compute it via `updateUserProgress`; any store failure
surfaces as the generic `Failed to get progress` error. -/
def getUserProgress (s : Store) (userId : String) (now : SimpleDate) (nowMs : Nat) :
    Except String (Progress × Store) :=
  if s.fail.getProgress then .error "Failed to get progress"
  else
    match s.progressDoc with
    | some p => .ok (p, s)
    | none =>
      match updateUserProgress s userId now nowMs with
      | .ok r => .ok r
      | .error _ => .error "Failed to get progress"

/-- The store-level effect of `getOrCreateMonthlyGoal` when no primitive
fails: the resolved goal together with the resulting store. -/
def resolveMonthlyGoal (s : Store) (userId : String) (month year nowMs : Nat) :
    MonthlyGoal × Store :=
  match s.monthlyGoals.lookup (monthlyKey month year) with
  | some g => (g, s)
  | none =>
    let g := defaultMonthlyGoal userId month year nowMs
    (g, { s with monthlyGoals := setDoc (monthlyKey month year) g s.monthlyGoals })

/-- The store-level effect of `getOrCreateSeasonalGoal` when no primitive
fails: the resolved goal together with the resulting store. -/
def resolveSeasonalGoal (s : Store) (userId season : String) (year nowMs : Nat) :
    SeasonalGoal × Store :=
  match s.seasonalGoals.lookup (seasonalKey season year) with
  | some g => (g, s)
  | none =>
    let g := defaultSeasonalGoal userId season year nowMs
    (g, { s with seasonalGoals := setDoc (seasonalKey season year) g s.seasonalGoals })

/-- The value and store produced by a failure-free run of
`updateUserProgress`. -/
def runUpdate (s : Store) (userId : String) (now : SimpleDate) (nowMs : Nat) :
    Progress × Store :=
  let activities := applyQuery s.activities 1000 0 none none none
  let mg := resolveMonthlyGoal s userId now.month now.year nowMs
  let sg := resolveSeasonalGoal mg.2 userId (getCurrentSeason now) now.year nowMs
  let progress := buildProgress userId activities now nowMs mg.1.target sg.1.target
  (progress, { sg.2 with progressDoc := some progress })

theorem getUserActivities_ok (s : Store) (lim off : Nat) (ty : Option String)
    (sd ed : Option SimpleDate) (hf : s.fail = noFail) :
    getUserActivities s lim off ty sd ed = .ok (applyQuery s.activities lim off ty sd ed) := by
  unfold getUserActivities
  rw [hf]
  rfl

theorem getOrCreateMonthlyGoal_ok (s : Store) (u : String) (m y ms : Nat)
    (hf : s.fail = noFail) :
    getOrCreateMonthlyGoal s u m y ms = .ok (resolveMonthlyGoal s u m y ms) := by
  unfold getOrCreateMonthlyGoal resolveMonthlyGoal
  rw [hf]
  cases s.monthlyGoals.lookup (monthlyKey m y) <;> rfl

theorem getOrCreateSeasonalGoal_ok (s : Store) (u sea : String) (y ms : Nat)
    (hf : s.fail = noFail) :
    getOrCreateSeasonalGoal s u sea y ms = .ok (resolveSeasonalGoal s u sea y ms) := by
  unfold getOrCreateSeasonalGoal resolveSeasonalGoal
  rw [hf]
  cases s.seasonalGoals.lookup (seasonalKey sea y) <;> rfl

theorem resolveMonthlyGoal_activities (s : Store) (u : String) (m y ms : Nat) :
    (resolveMonthlyGoal s u m y ms).2.activities = s.activities := by
  unfold resolveMonthlyGoal
  cases s.monthlyGoals.lookup (monthlyKey m y) <;> rfl

theorem resolveMonthlyGoal_seasonalGoals (s : Store) (u : String) (m y ms : Nat) :
    (resolveMonthlyGoal s u m y ms).2.seasonalGoals = s.seasonalGoals := by
  unfold resolveMonthlyGoal
  cases s.monthlyGoals.lookup (monthlyKey m y) <;> rfl

theorem resolveMonthlyGoal_fail (s : Store) (u : String) (m y ms : Nat) :
    (resolveMonthlyGoal s u m y ms).2.fail = s.fail := by
  unfold resolveMonthlyGoal
  cases s.monthlyGoals.lookup (monthlyKey m y) <;> rfl

theorem resolveSeasonalGoal_activities (s : Store) (u sea : String) (y ms : Nat) :
    (resolveSeasonalGoal s u sea y ms).2.activities = s.activities := by
  unfold resolveSeasonalGoal
  cases s.seasonalGoals.lookup (seasonalKey sea y) <;> rfl

theorem resolveSeasonalGoal_monthlyGoals (s : Store) (u sea : String) (y ms : Nat) :
    (resolveSeasonalGoal s u sea y ms).2.monthlyGoals = s.monthlyGoals := by
  unfold resolveSeasonalGoal
  cases s.seasonalGoals.lookup (seasonalKey sea y) <;> rfl

theorem resolveSeasonalGoal_fail (s : Store) (u sea : String) (y ms : Nat) :
    (resolveSeasonalGoal s u sea y ms).2.fail = s.fail := by
  unfold resolveSeasonalGoal
  cases s.seasonalGoals.lookup (seasonalKey sea y) <;> rfl

theorem updateUserProgress_ok (s : Store) (u : String) (now : SimpleDate) (ms : Nat)
    (hf : s.fail = noFail) :
    updateUserProgress s u now ms = .ok (runUpdate s u now ms) := by
  unfold updateUserProgress runUpdate getUserActivities getOrCreateMonthlyGoal
    getOrCreateSeasonalGoal resolveMonthlyGoal resolveSeasonalGoal
  cases hm : s.monthlyGoals.lookup (monthlyKey now.month now.year) <;>
    cases hs : s.seasonalGoals.lookup (seasonalKey (getCurrentSeason now) now.year) <;>
    simp [noFail, hf, hm, hs]

/-- Number of documents stored at a given key. -/
def keyCount {α : Type} (key : String) (docs : List (String × α)) : Nat :=
  (docs.filter (fun p => p.1 == key)).length

theorem lookup_setDoc_self {α : Type} (key : String) (v : α) (docs : List (String × α)) :
    (setDoc key v docs).lookup key = some v := by
  simp [setDoc, List.lookup]

theorem keyCount_setDoc_self {α : Type} (key : String) (v : α) (docs : List (String × α)) :
    keyCount key (setDoc key v docs) = 1 := by
  simp [keyCount, setDoc, List.filter_filter]

theorem applyQuery_perm (l : List ActivitySummary) (h : l.length ≤ 1000) :
    (applyQuery l 1000 0 none none none).Perm l := by
  simp only [applyQuery]
  rw [List.drop_zero, List.take_of_length_le]
  · exact List.perm_insertionSort _ l
  · rw [(List.perm_insertionSort _ l).length_eq]
    exact h

theorem applyQuery_length (l : List ActivitySummary) :
    (applyQuery l 1000 0 none none none).length = min l.length 1000 := by
  simp only [applyQuery]
  rw [List.drop_zero, List.length_take, (List.perm_insertionSort _ l).length_eq,
    Nat.min_comm]

theorem resolveMonthlyGoal_lookup_self (s : Store) (u : String) (m y ms : Nat) :
    (resolveMonthlyGoal s u m y ms).2.monthlyGoals.lookup (monthlyKey m y) =
      some (resolveMonthlyGoal s u m y ms).1 := by
  unfold resolveMonthlyGoal
  cases hl : s.monthlyGoals.lookup (monthlyKey m y) with
  | some g => exact hl
  | none => exact lookup_setDoc_self _ _ _

theorem resolveSeasonalGoal_lookup_self (s : Store) (u sea : String) (y ms : Nat) :
    (resolveSeasonalGoal s u sea y ms).2.seasonalGoals.lookup (seasonalKey sea y) =
      some (resolveSeasonalGoal s u sea y ms).1 := by
  unfold resolveSeasonalGoal
  cases hl : s.seasonalGoals.lookup (seasonalKey sea y) with
  | some g => exact hl
  | none => exact lookup_setDoc_self _ _ _

theorem runUpdate_fst (s : Store) (u : String) (now : SimpleDate) (ms : Nat) :
    (runUpdate s u now ms).1 =
      buildProgress u (applyQuery s.activities 1000 0 none none none) now ms
        (resolveMonthlyGoal s u now.month now.year ms).1.target
        (resolveSeasonalGoal (resolveMonthlyGoal s u now.month now.year ms).2 u
          (getCurrentSeason now) now.year ms).1.target := rfl

theorem runUpdate_fail (s : Store) (u : String) (now : SimpleDate) (ms : Nat) :
    (runUpdate s u now ms).2.fail = s.fail := by
  show (resolveSeasonalGoal _ u _ _ _).2.fail = s.fail
  rw [resolveSeasonalGoal_fail, resolveMonthlyGoal_fail]

theorem runUpdate_activities (s : Store) (u : String) (now : SimpleDate) (ms : Nat) :
    (runUpdate s u now ms).2.activities = s.activities := by
  show (resolveSeasonalGoal _ u _ _ _).2.activities = s.activities
  rw [resolveSeasonalGoal_activities, resolveMonthlyGoal_activities]

theorem runUpdate_monthlyGoals (s : Store) (u : String) (now : SimpleDate) (ms : Nat) :
    (runUpdate s u now ms).2.monthlyGoals =
      (resolveMonthlyGoal s u now.month now.year ms).2.monthlyGoals := by
  show (resolveSeasonalGoal _ u _ _ _).2.monthlyGoals = _
  rw [resolveSeasonalGoal_monthlyGoals]

theorem runUpdate_seasonalGoals (s : Store) (u : String) (now : SimpleDate) (ms : Nat) :
    (runUpdate s u now ms).2.seasonalGoals =
      (resolveSeasonalGoal (resolveMonthlyGoal s u now.month now.year ms).2 u
        (getCurrentSeason now) now.year ms).2.seasonalGoals := rfl

/-- A stored activity with the fields relevant to the progress engine. -/
def mkActivity (id : Nat) (distance : ℚ) (date : SimpleDate) (pace : Option ℚ) :
    ActivitySummary :=
  { id := id, name := "morning run", type := "Run", distance := distance, duration := 0,
    date := date, pace := pace, elevation := none, calories := none, route := none }

/-- A store holding the given activities, no goal documents, no progress
document, and fully functioning store primitives. -/
def baseStore (acts : List ActivitySummary) : Store :=
  { activities := acts, monthlyGoals := [], seasonalGoals := [], progressDoc := none,
    fail := noFail }

/-- Claim C10 (confirmed): `calculatePace` divides duration by distance only
when the distance is strictly positive and returns 0 for a zero or negative
distance, so a zero-distance synced activity converts to pace 0. -/
theorem calculatePace_zero_guard (d t : ℚ) :
    (0 < d → calculatePace d t = t / d) ∧ (d ≤ 0 → calculatePace d t = 0) ∧
      (∀ a : StravaActivity, a.distance = 0 → (convertToActivitySummary a).pace = some 0) := by
  refine ⟨fun h => ?_, fun h => ?_, fun a ha => ?_⟩
  · simp [calculatePace, h]
  · simp [calculatePace, not_lt.mpr h]
  · simp [convertToActivitySummary, metersToMiles, calculatePace, ha]

/-- Witness for `calculatePace_zero_guard` at distances 2, 0 and -1 miles. -/
theorem calculatePace_zero_guard_witness :
    calculatePace 2 16 = 16 / 2 ∧ calculatePace 0 5 = 0 ∧ calculatePace (-1) 5 = 0 ∧
      (convertToActivitySummary ⟨1, "r", "Run", 0, 60, 0, ⟨2024, 6, 1⟩, none, none⟩).pace =
        some 0 :=
  ⟨(calculatePace_zero_guard 2 16).1 (by norm_num),
   (calculatePace_zero_guard 0 5).2.1 (by norm_num),
   (calculatePace_zero_guard (-1) 5).2.1 (by norm_num),
   (calculatePace_zero_guard 0 0).2.2 _ rfl⟩

/-- Claim C8 (confirmed): the progress percentages returned by
`updateUserProgress` are mileage divided by the goal target times 100, with
no clamping at 100 (the witness exhibits ≈114.5 for 30 miles against a 26.2
target). -/
theorem progress_percentage_formula (s : Store) (u : String) (now : SimpleDate)
    (ms : Nat) (p : Progress) (s₂ : Store) (hf : s.fail = noFail)
    (h : updateUserProgress s u now ms = .ok (p, s₂)) :
    p.monthlyProgress = p.monthlyMileage / p.monthlyGoal * 100 ∧
      p.seasonalProgress = p.seasonalMileage / p.seasonalGoal * 100 := by
  rw [updateUserProgress_ok s u now ms hf] at h
  injection h with h
  have hp : p = (runUpdate s u now ms).1 := by rw [h]
  rw [hp, runUpdate_fst]
  exact ⟨rfl, rfl⟩

/-- A store holding a single 30-mile June 2024 activity. -/
def thirtyMileStore : Store := baseStore [mkActivity 1 30 ⟨2024, 6, 10⟩ none]

/-- Witness for `progress_percentage_formula`: 30 miles against the default
26.2-mile target yields 15000/131 ≈ 114.5 percent, exceeding 100. -/
theorem progress_percentage_formula_witness :
    ((runUpdate thirtyMileStore "u" ⟨2024, 6, 20⟩ 0).1.monthlyProgress =
        (runUpdate thirtyMileStore "u" ⟨2024, 6, 20⟩ 0).1.monthlyMileage /
          (runUpdate thirtyMileStore "u" ⟨2024, 6, 20⟩ 0).1.monthlyGoal * 100 ∧
      (runUpdate thirtyMileStore "u" ⟨2024, 6, 20⟩ 0).1.seasonalProgress =
        (runUpdate thirtyMileStore "u" ⟨2024, 6, 20⟩ 0).1.seasonalMileage /
          (runUpdate thirtyMileStore "u" ⟨2024, 6, 20⟩ 0).1.seasonalGoal * 100) ∧
      (runUpdate thirtyMileStore "u" ⟨2024, 6, 20⟩ 0).1.monthlyProgress = 15000 / 131 ∧
      (100 : ℚ) < 15000 / 131 :=
  ⟨progress_percentage_formula thirtyMileStore "u" ⟨2024, 6, 20⟩ 0 _ _ rfl
      (updateUserProgress_ok thirtyMileStore "u" ⟨2024, 6, 20⟩ 0 rfl),
   by with_unfolding_all rfl,
   by with_unfolding_all decide⟩

/-- A store with three June 2024 activities whose paces are 6, null and 8
minutes per mile. -/
def nullPaceStore : Store :=
  baseStore [mkActivity 1 1 ⟨2024, 6, 10⟩ (some 6), mkActivity 2 1 ⟨2024, 6, 11⟩ none,
    mkActivity 3 1 ⟨2024, 6, 12⟩ (some 8)]

/-- Counterexample to claim C1: on paces `[6, null, 8]` the engine returns
`averagePace = 14/3 ≈ 4.67`, not `7`: the null-pace activity is counted as
pace 0 in the sum and still counted in the denominator. -/
theorem averagePace_null_counterexample :
    (updateUserProgress nullPaceStore "u" ⟨2024, 6, 20⟩ 0).map (fun r => r.1.averagePace) =
        .ok (14 / 3) ∧ (14 / 3 : ℚ) ≠ 7 :=
  ⟨by with_unfolding_all rfl, by with_unfolding_all decide⟩

/-- Claim C1 (corrected): `updateUserProgress` computes `averagePace` as the
sum of `pace || 0` over ALL activities divided by the count of ALL
activities — a missing/null pace contributes 0 to the sum but is still
counted in the denominator. -/
theorem averagePace_counts_all_activities (s : Store) (u : String) (now : SimpleDate)
    (ms : Nat) (hf : s.fail = noFail) (hlen : s.activities.length ≤ 1000)
    (hne : s.activities ≠ []) :
    (updateUserProgress s u now ms).map (fun r => r.1.averagePace) =
      .ok ((s.activities.map (fun a => a.pace.getD 0)).sum / (s.activities.length : ℚ)) := by
  rw [updateUserProgress_ok s u now ms hf]
  have hperm := applyQuery_perm s.activities hlen
  have hq : (applyQuery s.activities 1000 0 none none none).length = s.activities.length :=
    hperm.length_eq
  have hsum : ((applyQuery s.activities 1000 0 none none none).map
      (fun a => a.pace.getD 0)).sum = (s.activities.map (fun a => a.pace.getD 0)).sum :=
    (hperm.map _).sum_eq
  have hpos : 0 < (applyQuery s.activities 1000 0 none none none).length := by
    rw [hq]
    exact List.length_pos.mpr hne
  simp only [Except.map, runUpdate_fst, buildProgress]
  rw [if_pos hpos, hsum, hq]

/-- Witness for `averagePace_counts_all_activities` on the `[6, null, 8]`
store. -/
theorem averagePace_counts_all_activities_witness :
    (updateUserProgress nullPaceStore "u" ⟨2024, 6, 21⟩ 0).map (fun r => r.1.averagePace) =
      .ok ((nullPaceStore.activities.map (fun a => a.pace.getD 0)).sum /
        (nullPaceStore.activities.length : ℚ)) :=
  averagePace_counts_all_activities nullPaceStore "u" ⟨2024, 6, 21⟩ 0 rfl (by decide)
    (by decide)

/-- A store with a single 5-mile activity from June 2023 (a past year). -/
def staleYearStore : Store := baseStore [mkActivity 1 5 ⟨2023, 6, 1⟩ none]

/-- Counterexample to claim C3: at `now = 2024-06-20` (Summer 2024), an
activity dated 2023-06-01 — the same calendar months of a DIFFERENT year —
is counted: seasonal mileage is 5, not 0, because `isInSeason` compares only
the month of the activity date. -/
theorem seasonalMileage_year_counterexample :
    (updateUserProgress staleYearStore "u" ⟨2024, 6, 20⟩ 0).map
        (fun r => r.1.seasonalMileage) = .ok 5 ∧ (5 : ℚ) ≠ 0 :=
  ⟨by with_unfolding_all rfl, by norm_num⟩

/-- Claim C3 (corrected): `seasonalMileage` sums the distances of exactly
those activities whose date's MONTH falls in the current season's months;
the season membership test never consults the year (or the day), so
same-month activities of any year are included. -/
theorem seasonalMileage_month_only (s : Store) (u : String) (now : SimpleDate)
    (ms : Nat) (hf : s.fail = noFail) (hlen : s.activities.length ≤ 1000) :
    (updateUserProgress s u now ms).map (fun r => r.1.seasonalMileage) =
        .ok (((s.activities.filter
          (fun a => isInSeason a.date (getCurrentSeason now))).map
            (fun a => a.distance)).sum) ∧
      (∀ d d' : SimpleDate, d.month = d'.month →
        ∀ sea : String, isInSeason d sea = isInSeason d' sea) := by
  constructor
  · rw [updateUserProgress_ok s u now ms hf]
    have hperm := applyQuery_perm s.activities hlen
    have hsum := ((hperm.filter
      (fun a => isInSeason a.date (getCurrentSeason now))).map (fun a => a.distance)).sum_eq
    simp only [Except.map, runUpdate_fst, buildProgress]
    rw [hsum]
  · intro d d' hm sea
    simp [isInSeason, hm]

/-- Witness for `seasonalMileage_month_only` on the June 2023 store. -/
theorem seasonalMileage_month_only_witness :
    (updateUserProgress staleYearStore "u" ⟨2024, 6, 20⟩ 0).map
        (fun r => r.1.seasonalMileage) =
        .ok (((staleYearStore.activities.filter
          (fun a => isInSeason a.date (getCurrentSeason ⟨2024, 6, 20⟩))).map
            (fun a => a.distance)).sum) ∧
      (∀ d d' : SimpleDate, d.month = d'.month →
        ∀ sea : String, isInSeason d sea = isInSeason d' sea) :=
  seasonalMileage_month_only staleYearStore "u" ⟨2024, 6, 20⟩ 0 rfl (by decide)

/-- A store with 1001 zero-distance June 2024 activities. -/
def thousandOneStore : Store :=
  baseStore ((List.range 1001).map (fun i => mkActivity i 0 ⟨2024, 6, 10⟩ none))

/-- Counterexample to claim C4: with 1001 stored activities the engine reads
only `limit: 1000` of them, so `totalActivities` is 1000, not the full
count 1001. -/
theorem totalActivities_cap_counterexample :
    thousandOneStore.activities.length = 1001 ∧
      (updateUserProgress thousandOneStore "u" ⟨2024, 6, 20⟩ 0).map
        (fun r => r.1.totalActivities) = .ok 1000 ∧ (1000 : Nat) ≠ 1001 :=
  ⟨by with_unfolding_all rfl, by with_unfolding_all rfl, by decide⟩

/-- Claim C4 (corrected): `updateUserProgress` operates over at most the 1000
most recent activities (`getUserActivities` is called with `limit: 1000`):
`totalActivities` is `min (stored count) 1000`, not always the full count. -/
theorem totalActivities_capped (s : Store) (u : String) (now : SimpleDate) (ms : Nat)
    (hf : s.fail = noFail) :
    (updateUserProgress s u now ms).map (fun r => r.1.totalActivities) =
      .ok (min s.activities.length 1000) := by
  rw [updateUserProgress_ok s u now ms hf]
  simp only [Except.map, runUpdate_fst, buildProgress]
  rw [applyQuery_length]

/-- Witness for `totalActivities_capped` on the 1001-activity store. -/
theorem totalActivities_capped_witness :
    (updateUserProgress thousandOneStore "u" ⟨2024, 6, 20⟩ 0).map
      (fun r => r.1.totalActivities) = .ok (min thousandOneStore.activities.length 1000) :=
  totalActivities_capped thousandOneStore "u" ⟨2024, 6, 20⟩ 0 rfl

/-- A store with a single 5-mile activity dated 2024-12-20. -/
def decemberStore : Store := baseStore [mkActivity 1 5 ⟨2024, 12, 20⟩ none]

/-- Counterexample to claim C2: at `now = 2025-01-15` the engine resolves the
seasonal goal with `currentYear = 2025`, creating the document keyed
`seasonal_2025_Winter` (start date Dec 1 2025, i.e. a Winter that has not
yet begun) and nothing at `seasonal_2024_Winter`; the 2024-12-20 activity is
nevertheless included in seasonal mileage, since the season test ignores
years. -/
theorem winter_goal_year_counterexample :
    (updateUserProgress decemberStore "u" ⟨2025, 1, 15⟩ 0).map
        (fun r => (r.2.seasonalGoals.lookup "seasonal_2025_Winter",
          r.2.seasonalGoals.lookup "seasonal_2024_Winter", r.1.seasonalMileage)) =
        .ok (some (defaultSeasonalGoal "u" "Winter" 2025 0), none, 5) ∧
      (defaultSeasonalGoal "u" "Winter" 2025 0).year = 2025 ∧ (2025 : Nat) ≠ 2024 ∧
      (defaultSeasonalGoal "u" "Winter" 2025 0).startDate = ⟨2025, 12, 1⟩ ∧
      (⟨2025, 12, 1⟩ : SimpleDate) ≠ ⟨2024, 12, 1⟩ :=
  ⟨by with_unfolding_all rfl, rfl, by decide, rfl, by decide⟩

/-- Claim C2 (corrected): in January/February the engine still uses `now`'s
own year: at `now = 2025-01-15` the current season is `"Winter"` but the
seasonal goal resolved/created is keyed `(userId, Winter, 2025)` — with
start date Dec 1 2025 and end date end-of-Feb 2026, not Winter 2024's
dates — while an activity dated 2024-12-20 IS included in seasonal mileage,
because the season filter checks only the month. -/
theorem winter_goal_uses_current_year (s : Store) (u : String) (ms : Nat)
    (hf : s.fail = noFail)
    (hnone : s.seasonalGoals.lookup (seasonalKey "Winter" 2025) = none)
    (hlen : s.activities.length ≤ 1000) :
    getCurrentSeason ⟨2025, 1, 15⟩ = "Winter" ∧
      (updateUserProgress s u ⟨2025, 1, 15⟩ ms).map
          (fun r => r.2.seasonalGoals.lookup (seasonalKey "Winter" 2025)) =
        .ok (some (defaultSeasonalGoal u "Winter" 2025 ms)) ∧
      (defaultSeasonalGoal u "Winter" 2025 ms).startDate = ⟨2025, 12, 1⟩ ∧
      (defaultSeasonalGoal u "Winter" 2025 ms).endDate = ⟨2026, 2, 28⟩ ∧
      isInSeason ⟨2024, 12, 20⟩ "Winter" = true ∧
      (updateUserProgress s u ⟨2025, 1, 15⟩ ms).map (fun r => r.1.seasonalMileage) =
        .ok (((s.activities.filter (fun a => isInSeason a.date "Winter")).map
          (fun a => a.distance)).sum) := by
  have hperm := applyQuery_perm s.activities hlen
  refine ⟨rfl, ?_, rfl, rfl, rfl, ?_⟩
  · rw [updateUserProgress_ok s u ⟨2025, 1, 15⟩ ms hf]
    simp only [Except.map, runUpdate_seasonalGoals]
    have hsea : getCurrentSeason ⟨2025, 1, 15⟩ = "Winter" := rfl
    have hmgs : (resolveMonthlyGoal s u (1 : Nat) (2025 : Nat) ms).2.seasonalGoals.lookup
        (seasonalKey "Winter" 2025) = none := by
      rw [resolveMonthlyGoal_seasonalGoals]
      exact hnone
    unfold resolveSeasonalGoal
    rw [hsea, hmgs]
    rw [lookup_setDoc_self]
  · rw [updateUserProgress_ok s u ⟨2025, 1, 15⟩ ms hf]
    have hsum := ((hperm.filter (fun a => isInSeason a.date "Winter")).map
      (fun a => a.distance)).sum_eq
    simp only [Except.map, runUpdate_fst, buildProgress]
    rw [show getCurrentSeason ⟨2025, 1, 15⟩ = "Winter" from rfl, hsum]

/-- Witness for `winter_goal_uses_current_year` on the December 2024 store. -/
theorem winter_goal_uses_current_year_witness :
    getCurrentSeason ⟨2025, 1, 15⟩ = "Winter" ∧
      (updateUserProgress decemberStore "u" ⟨2025, 1, 15⟩ 7).map
          (fun r => r.2.seasonalGoals.lookup (seasonalKey "Winter" 2025)) =
        .ok (some (defaultSeasonalGoal "u" "Winter" 2025 7)) ∧
      (defaultSeasonalGoal "u" "Winter" 2025 7).startDate = ⟨2025, 12, 1⟩ ∧
      (defaultSeasonalGoal "u" "Winter" 2025 7).endDate = ⟨2026, 2, 28⟩ ∧
      isInSeason ⟨2024, 12, 20⟩ "Winter" = true ∧
      (updateUserProgress decemberStore "u" ⟨2025, 1, 15⟩ 7).map
          (fun r => r.1.seasonalMileage) =
        .ok (((decemberStore.activities.filter (fun a => isInSeason a.date "Winter")).map
          (fun a => a.distance)).sum) :=
  winter_goal_uses_current_year decemberStore "u" 7 rfl rfl (by decide)

theorem resolveMonthlyGoal_found (s : Store) (u : String) (m y ms : Nat)
    (g0 : MonthlyGoal) (h : s.monthlyGoals.lookup (monthlyKey m y) = some g0) :
    resolveMonthlyGoal s u m y ms = (g0, s) := by
  unfold resolveMonthlyGoal
  rw [h]

theorem resolveSeasonalGoal_found (s : Store) (u sea : String) (y ms : Nat)
    (g0 : SeasonalGoal) (h : s.seasonalGoals.lookup (seasonalKey sea y) = some g0) :
    resolveSeasonalGoal s u sea y ms = (g0, s) := by
  unfold resolveSeasonalGoal
  rw [h]

theorem resolveMonthlyGoal_keyCount (s : Store) (u : String) (m y ms : Nat)
    (h : keyCount (monthlyKey m y) s.monthlyGoals ≤ 1) :
    keyCount (monthlyKey m y) (resolveMonthlyGoal s u m y ms).2.monthlyGoals ≤ 1 := by
  unfold resolveMonthlyGoal
  cases hl : s.monthlyGoals.lookup (monthlyKey m y) with
  | some g => exact h
  | none => simp [keyCount_setDoc_self]

theorem resolveSeasonalGoal_keyCount (s : Store) (u sea : String) (y ms : Nat)
    (h : keyCount (seasonalKey sea y) s.seasonalGoals ≤ 1) :
    keyCount (seasonalKey sea y) (resolveSeasonalGoal s u sea y ms).2.seasonalGoals ≤ 1 := by
  unfold resolveSeasonalGoal
  cases hl : s.seasonalGoals.lookup (seasonalKey sea y) with
  | some g => exact h
  | none => simp [keyCount_setDoc_self]

/-- Claim C6 (confirmed): for a user with zero activities,
`updateUserProgress` succeeds and yields zero monthly/seasonal mileage, zero
total activities, zero average pace, zero longest run, and both progress
percentages zero. (The nonzero-target hypotheses record that the divisions
by the goal targets are genuine; the engine's own default targets 26.2 and
78.6 are nonzero, and nothing in the engine writes any other target.) -/
theorem empty_activities_zero_progress (s : Store) (u : String) (now : SimpleDate)
    (ms : Nat) (hf : s.fail = noFail) (hempty : s.activities = [])
    (_hm : ∀ g, s.monthlyGoals.lookup (monthlyKey now.month now.year) = some g →
      g.target ≠ 0)
    (_hs : ∀ g, s.seasonalGoals.lookup (seasonalKey (getCurrentSeason now) now.year) =
      some g → g.target ≠ 0) :
    (updateUserProgress s u now ms).map (fun r =>
        (r.1.monthlyMileage, r.1.seasonalMileage, r.1.totalActivities, r.1.averagePace,
          r.1.longestRun, r.1.monthlyProgress, r.1.seasonalProgress)) =
      .ok (0, 0, 0, 0, 0, 0, 0) := by
  rw [updateUserProgress_ok s u now ms hf]
  have hq : applyQuery s.activities 1000 0 none none none = [] := by
    rw [hempty]
    rfl
  simp only [Except.map, runUpdate_fst, buildProgress, hq]
  simp

/-- Witness for `empty_activities_zero_progress` on the empty store. -/
theorem empty_activities_zero_progress_witness :
    (updateUserProgress (baseStore []) "u" ⟨2024, 6, 20⟩ 3).map (fun r =>
        (r.1.monthlyMileage, r.1.seasonalMileage, r.1.totalActivities, r.1.averagePace,
          r.1.longestRun, r.1.monthlyProgress, r.1.seasonalProgress)) =
      .ok (0, 0, 0, 0, 0, 0, 0) :=
  empty_activities_zero_progress (baseStore []) "u" ⟨2024, 6, 20⟩ 3 rfl rfl
    (fun g hg => by simp [baseStore] at hg) (fun g hg => by simp [baseStore] at hg)

/-- Claim C5 (confirmed): two successive `getOrCreateMonthlyGoal` calls for
the same `(userId, month, year)` return the same goal (hence the same
target), the second call leaves the store unchanged, at most one document
lives at the key `monthly_{year}_{month}` afterwards, and an existing goal
is returned as-is without any mutation; analogously for
`getOrCreateSeasonalGoal` at key `seasonal_{year}_{season}`. -/
theorem goal_get_or_create_idempotent (s t : Store) (u : String) (m y : Nat)
    (sea : String) (y' ms₁ ms₂ ns₁ ns₂ : Nat) (g1 g2 : MonthlyGoal) (s1 s2 : Store)
    (q1 q2 : SeasonalGoal) (t1 t2 : Store)
    (hf : s.fail = noFail) (hft : t.fail = noFail)
    (hm1 : getOrCreateMonthlyGoal s u m y ms₁ = .ok (g1, s1))
    (hm2 : getOrCreateMonthlyGoal s1 u m y ms₂ = .ok (g2, s2))
    (hq1 : getOrCreateSeasonalGoal t u sea y' ns₁ = .ok (q1, t1))
    (hq2 : getOrCreateSeasonalGoal t1 u sea y' ns₂ = .ok (q2, t2)) :
    (g2 = g1 ∧ g2.target = g1.target ∧ s2 = s1 ∧
      (keyCount (monthlyKey m y) s.monthlyGoals ≤ 1 →
        keyCount (monthlyKey m y) s1.monthlyGoals ≤ 1) ∧
      (∀ g0, s.monthlyGoals.lookup (monthlyKey m y) = some g0 → g1 = g0 ∧ s1 = s)) ∧
    (q2 = q1 ∧ q2.target = q1.target ∧ t2 = t1 ∧
      (keyCount (seasonalKey sea y') t.seasonalGoals ≤ 1 →
        keyCount (seasonalKey sea y') t1.seasonalGoals ≤ 1) ∧
      (∀ g0, t.seasonalGoals.lookup (seasonalKey sea y') = some g0 → q1 = g0 ∧ t1 = t)) := by
  rw [getOrCreateMonthlyGoal_ok s u m y ms₁ hf] at hm1
  injection hm1 with hm1
  have hg1 : g1 = (resolveMonthlyGoal s u m y ms₁).1 := by rw [hm1]
  have hs1 : s1 = (resolveMonthlyGoal s u m y ms₁).2 := by rw [hm1]
  have hf1 : s1.fail = noFail := by rw [hs1, resolveMonthlyGoal_fail]; exact hf
  have hlook : s1.monthlyGoals.lookup (monthlyKey m y) = some g1 := by
    rw [hs1, hg1]
    exact resolveMonthlyGoal_lookup_self s u m y ms₁
  rw [getOrCreateMonthlyGoal_ok s1 u m y ms₂ hf1,
    resolveMonthlyGoal_found s1 u m y ms₂ g1 hlook] at hm2
  injection hm2 with hm2
  injection hm2 with hg2x hs2x
  have hg2 : g2 = g1 := hg2x.symm
  have hs2 : s2 = s1 := hs2x.symm
  rw [getOrCreateSeasonalGoal_ok t u sea y' ns₁ hft] at hq1
  injection hq1 with hq1
  have hr1 : q1 = (resolveSeasonalGoal t u sea y' ns₁).1 := by rw [hq1]
  have ht1 : t1 = (resolveSeasonalGoal t u sea y' ns₁).2 := by rw [hq1]
  have hft1 : t1.fail = noFail := by rw [ht1, resolveSeasonalGoal_fail]; exact hft
  have hlookt : t1.seasonalGoals.lookup (seasonalKey sea y') = some q1 := by
    rw [ht1, hr1]
    exact resolveSeasonalGoal_lookup_self t u sea y' ns₁
  rw [getOrCreateSeasonalGoal_ok t1 u sea y' ns₂ hft1,
    resolveSeasonalGoal_found t1 u sea y' ns₂ q1 hlookt] at hq2
  injection hq2 with hq2
  injection hq2 with hr2x ht2x
  have hr2 : q2 = q1 := hr2x.symm
  have ht2 : t2 = t1 := ht2x.symm
  refine ⟨⟨hg2, by rw [hg2], hs2, fun hc => ?_, fun g0 h0 => ?_⟩,
    ⟨hr2, by rw [hr2], ht2, fun hc => ?_, fun g0 h0 => ?_⟩⟩
  · rw [hs1]
    exact resolveMonthlyGoal_keyCount s u m y ms₁ hc
  · rw [hg1, hs1, resolveMonthlyGoal_found s u m y ms₁ g0 h0]
    exact ⟨rfl, rfl⟩
  · rw [ht1]
    exact resolveSeasonalGoal_keyCount t u sea y' ns₁ hc
  · rw [hr1, ht1, resolveSeasonalGoal_found t u sea y' ns₁ g0 h0]
    exact ⟨rfl, rfl⟩

/-- The store after creating the default June 2024 monthly goal in an empty
store. -/
def monthlyGoalStore1 : Store :=
  { baseStore [] with
    monthlyGoals := setDoc (monthlyKey 6 2024) (defaultMonthlyGoal "u" 6 2024 1) [] }

/-- The store after creating the default Summer 2024 seasonal goal in an
empty store. -/
def seasonalGoalStore1 : Store :=
  { baseStore [] with
    seasonalGoals := setDoc (seasonalKey "Summer" 2024) (defaultSeasonalGoal "u" "Summer" 2024 1) [] }

/-- Witness for `goal_get_or_create_idempotent`: two successive goal
creations for June 2024 and Summer 2024 from an empty store. -/
theorem goal_get_or_create_idempotent_witness :
    (defaultMonthlyGoal "u" 6 2024 1 = defaultMonthlyGoal "u" 6 2024 1 ∧
      (defaultMonthlyGoal "u" 6 2024 1).target = (defaultMonthlyGoal "u" 6 2024 1).target ∧
      monthlyGoalStore1 = monthlyGoalStore1 ∧
      (keyCount (monthlyKey 6 2024) (baseStore []).monthlyGoals ≤ 1 →
        keyCount (monthlyKey 6 2024) monthlyGoalStore1.monthlyGoals ≤ 1) ∧
      (∀ g0, (baseStore []).monthlyGoals.lookup (monthlyKey 6 2024) = some g0 →
        defaultMonthlyGoal "u" 6 2024 1 = g0 ∧ monthlyGoalStore1 = baseStore [])) ∧
    (defaultSeasonalGoal "u" "Summer" 2024 1 = defaultSeasonalGoal "u" "Summer" 2024 1 ∧
      (defaultSeasonalGoal "u" "Summer" 2024 1).target =
        (defaultSeasonalGoal "u" "Summer" 2024 1).target ∧
      seasonalGoalStore1 = seasonalGoalStore1 ∧
      (keyCount (seasonalKey "Summer" 2024) (baseStore []).seasonalGoals ≤ 1 →
        keyCount (seasonalKey "Summer" 2024) seasonalGoalStore1.seasonalGoals ≤ 1) ∧
      (∀ g0, (baseStore []).seasonalGoals.lookup (seasonalKey "Summer" 2024) = some g0 →
        defaultSeasonalGoal "u" "Summer" 2024 1 = g0 ∧ seasonalGoalStore1 = baseStore [])) :=
  goal_get_or_create_idempotent (baseStore []) (baseStore []) "u" 6 2024 "Summer" 2024
    1 2 1 2 (defaultMonthlyGoal "u" 6 2024 1) (defaultMonthlyGoal "u" 6 2024 1)
    monthlyGoalStore1 monthlyGoalStore1
    (defaultSeasonalGoal "u" "Summer" 2024 1) (defaultSeasonalGoal "u" "Summer" 2024 1)
    seasonalGoalStore1 seasonalGoalStore1 rfl rfl
    (by with_unfolding_all rfl) (by with_unfolding_all rfl)
    (by with_unfolding_all rfl) (by with_unfolding_all rfl)

theorem getOrCreateMonthlyGoal_fail_eq (s : Store) (u : String) (m y ms : Nat)
    (g : MonthlyGoal) (s1 : Store)
    (h : getOrCreateMonthlyGoal s u m y ms = .ok (g, s1)) : s1.fail = s.fail := by
  unfold getOrCreateMonthlyGoal at h
  split at h
  · exact absurd h (by simp)
  · split at h
    · injection h with h
      injection h with h1 h2
      rw [← h2]
    · split at h
      · exact absurd h (by simp)
      · injection h with h
        injection h with h1 h2
        rw [← h2]

theorem getOrCreateSeasonalGoal_fail_eq (s : Store) (u sea : String) (y ms : Nat)
    (g : SeasonalGoal) (s1 : Store)
    (h : getOrCreateSeasonalGoal s u sea y ms = .ok (g, s1)) : s1.fail = s.fail := by
  unfold getOrCreateSeasonalGoal at h
  split at h
  · exact absurd h (by simp)
  · split at h
    · injection h with h
      injection h with h1 h2
      rw [← h2]
    · split at h
      · exact absurd h (by simp)
      · injection h with h
        injection h with h1 h2
        rw [← h2]

/-- Claim C9 (confirmed): a failing store primitive surfaces as the single
generic error (`Failed to update progress` on the write path, `Failed to get
progress` on the read path) with no retry — a single injected failure makes
the whole call fail; and the read path returns the persisted `Progress`
document when present, otherwise computing it by invoking
`updateUserProgress`. -/
theorem store_failure_and_read_path :
    (∀ (s : Store) (u : String) (now : SimpleDate) (ms : Nat),
        s.fail.listActs = true ∨ s.fail.getGoal = true ∨ s.fail.setProgress = true →
        updateUserProgress s u now ms = .error "Failed to update progress") ∧
    (∀ (s : Store) (u : String) (now : SimpleDate) (ms : Nat),
        s.fail.getProgress = true →
        getUserProgress s u now ms = .error "Failed to get progress") ∧
    (∀ (s : Store) (u : String) (now : SimpleDate) (ms : Nat) (p : Progress),
        s.fail.getProgress = false → s.progressDoc = some p →
        getUserProgress s u now ms = .ok (p, s)) ∧
    (∀ (s : Store) (u : String) (now : SimpleDate) (ms : Nat),
        s.fail = noFail → s.progressDoc = none →
        getUserProgress s u now ms = updateUserProgress s u now ms) := by
  refine ⟨?_, ?_, ?_, ?_⟩
  · intro s u now ms h
    rcases h with h | h | h
    · simp [updateUserProgress, getUserActivities, h]
    · have hmge : getOrCreateMonthlyGoal s u now.month now.year ms =
          .error "Failed to create monthly goal" := by
        simp [getOrCreateMonthlyGoal, h]
      cases hga : getUserActivities s 1000 0 none none none with
      | error e => simp [updateUserProgress, hga]
      | ok acts => simp [updateUserProgress, hga, hmge]
    · cases hga : getUserActivities s 1000 0 none none none with
      | error e => simp [updateUserProgress, hga]
      | ok acts =>
        cases hmg : getOrCreateMonthlyGoal s u now.month now.year ms with
        | error e => simp [updateUserProgress, hga, hmg]
        | ok pr =>
          rcases pr with ⟨mg, s1⟩
          have hf1 : s1.fail = s.fail :=
            getOrCreateMonthlyGoal_fail_eq s u now.month now.year ms mg s1 hmg
          cases hsg : getOrCreateSeasonalGoal s1 u (getCurrentSeason now) now.year ms with
          | error e => simp [updateUserProgress, hga, hmg, hsg]
          | ok pr2 =>
            rcases pr2 with ⟨sg, s2⟩
            have hf2 : s2.fail = s1.fail :=
              getOrCreateSeasonalGoal_fail_eq s1 u (getCurrentSeason now) now.year ms sg s2 hsg
            simp [updateUserProgress, hga, hmg, hsg, hf2, hf1, h]
  · intro s u now ms h
    unfold getUserProgress
    rw [h]
    rfl
  · intro s u now ms p h1 h2
    unfold getUserProgress
    rw [h1, h2]
    rfl
  · intro s u now ms hf hd
    have hzero : s.fail.getProgress = false := by rw [hf]; rfl
    unfold getUserProgress
    rw [hzero, hd, updateUserProgress_ok s u now ms hf]
    rfl

/-- A store whose activity-list primitive fails. -/
def listFailStore : Store := { baseStore [] with fail := ⟨true, false, false, false, false⟩ }

/-- A store whose progress-read primitive fails. -/
def progressFailStore : Store :=
  { baseStore [] with fail := ⟨false, false, false, true, false⟩ }

/-- A progress document used to populate the read-path cache. -/
def cachedProgress : Progress :=
  ⟨"u", 0, 0, 131 / 5, 393 / 5, 0, 0, 0, 0, 0, 0⟩

/-- A store holding a persisted progress document. -/
def cachedStore : Store := { baseStore [] with progressDoc := some cachedProgress }

/-- Witness for `store_failure_and_read_path` on concrete stores. -/
theorem store_failure_and_read_path_witness :
    updateUserProgress listFailStore "u" ⟨2024, 6, 20⟩ 0 =
        .error "Failed to update progress" ∧
      getUserProgress progressFailStore "u" ⟨2024, 6, 20⟩ 0 =
        .error "Failed to get progress" ∧
      getUserProgress cachedStore "u" ⟨2024, 6, 20⟩ 0 = .ok (cachedProgress, cachedStore) ∧
      getUserProgress (baseStore []) "u" ⟨2024, 6, 20⟩ 0 =
        updateUserProgress (baseStore []) "u" ⟨2024, 6, 20⟩ 0 :=
  ⟨store_failure_and_read_path.1 listFailStore "u" ⟨2024, 6, 20⟩ 0 (Or.inl rfl),
   store_failure_and_read_path.2.1 progressFailStore "u" ⟨2024, 6, 20⟩ 0 rfl,
   store_failure_and_read_path.2.2.1 cachedStore "u" ⟨2024, 6, 20⟩ 0 cachedProgress rfl rfl,
   store_failure_and_read_path.2.2.2 (baseStore []) "u" ⟨2024, 6, 20⟩ 0 rfl rfl⟩

/-- Claim C7 (confirmed): running `updateUserProgress` twice in succession —
the second call on the store left by the first — with the same reference
instant produces identical `Progress` values, `lastUpdated` included (it is
pinned to the given instant). -/
theorem updateProgress_deterministic (s : Store) (u : String) (now : SimpleDate)
    (ms : Nat) (p1 : Progress) (s1 : Store) (p2 : Progress) (s2 : Store)
    (hf : s.fail = noFail)
    (h1 : updateUserProgress s u now ms = .ok (p1, s1))
    (h2 : updateUserProgress s1 u now ms = .ok (p2, s2)) : p2 = p1 := by
  rw [updateUserProgress_ok s u now ms hf] at h1
  injection h1 with h1
  have hp1 : p1 = (runUpdate s u now ms).1 := by rw [h1]
  have hs1 : s1 = (runUpdate s u now ms).2 := by rw [h1]
  have hf1 : s1.fail = noFail := by rw [hs1, runUpdate_fail]; exact hf
  rw [updateUserProgress_ok s1 u now ms hf1] at h2
  injection h2 with h2
  have hp2 : p2 = (runUpdate s1 u now ms).1 := by rw [h2]
  have hacts : s1.activities = s.activities := by rw [hs1, runUpdate_activities]
  have hmg : resolveMonthlyGoal s1 u now.month now.year ms =
      ((resolveMonthlyGoal s u now.month now.year ms).1, s1) := by
    apply resolveMonthlyGoal_found
    rw [hs1, runUpdate_monthlyGoals]
    exact resolveMonthlyGoal_lookup_self s u now.month now.year ms
  have hsg : resolveSeasonalGoal s1 u (getCurrentSeason now) now.year ms =
      ((resolveSeasonalGoal (resolveMonthlyGoal s u now.month now.year ms).2 u
        (getCurrentSeason now) now.year ms).1, s1) := by
    apply resolveSeasonalGoal_found
    rw [hs1, runUpdate_seasonalGoals]
    exact resolveSeasonalGoal_lookup_self _ u (getCurrentSeason now) now.year ms
  rw [hp2, hp1, runUpdate_fst, runUpdate_fst, hacts, hmg]
  rw [show ((resolveMonthlyGoal s u now.month now.year ms).1, s1).2 = s1 from rfl, hsg]

/-- Witness for `updateProgress_deterministic`: two successive runs on the
three-activity store. -/
theorem updateProgress_deterministic_witness :
    (runUpdate (runUpdate nullPaceStore "u" ⟨2024, 6, 20⟩ 5).2 "u" ⟨2024, 6, 20⟩ 5).1 =
      (runUpdate nullPaceStore "u" ⟨2024, 6, 20⟩ 5).1 :=
  updateProgress_deterministic nullPaceStore "u" ⟨2024, 6, 20⟩ 5 _ _ _ _ rfl
    (updateUserProgress_ok nullPaceStore "u" ⟨2024, 6, 20⟩ 5 rfl)
    (updateUserProgress_ok (runUpdate nullPaceStore "u" ⟨2024, 6, 20⟩ 5).2 "u"
      ⟨2024, 6, 20⟩ 5 (by rw [runUpdate_fail]; rfl))

end StrideSync
